import Mathlib

/-!
Verification of the heritage-site data transformation pipeline
(`src/transformers.py`, class `HeritageDataTransformationPipeline`).

The Python code is shallowly embedded: strings are modelled as `String`
values whose processing happens on their character lists (`List Char`);
Python regular-expression operations are modelled by executable functions
on character lists.  Modelling conventions, stated once here:

* Python `\w` (word character) and `\s` (whitespace) are modelled over the
  ASCII fragment (`wordChar`, `pySpace`); the full Unicode classes are not
  needed by the claims under verification.
* `unicodedata.normalize('NFKD', _)` is the identity on the ASCII fragment
  and is modelled as the identity (`_normalize_unicode` keeps the character
  filter and strip that surround it in the source).
* Python floats are modelled as `ℚ`.  Every score produced by the code is a
  multiple of 1/10, a grid on which float comparison against the literals
  0.8, 0.6, 0.5 agrees with the rational comparison.
* Python `datetime.now().isoformat()` is modelled as an explicit `now`
  argument threaded into the pipeline.
* A Python `AttributeError` raised on a non-string field is modelled by
  `Except.error`; raw-record fields hold either a string or an `int`.
-/

/-- Characters of a Python string. -/
abbrev Chars := List Char

/-- Python regex `\s` (ASCII fragment): space, tab, newline, vertical tab,
form feed, carriage return. -/
def pySpace (c : Char) : Bool :=
  c = ' ' || c = Char.ofNat 9 || c = Char.ofNat 10 || c = Char.ofNat 11 ||
  c = Char.ofNat 12 || c = Char.ofNat 13

/-- Python regex `\w` (ASCII fragment): letters, digits, underscore. -/
def wordChar (c : Char) : Bool :=
  c.isAlpha || c.isDigit || c = '_'

/-- Python `str.strip()`: drop whitespace from both ends. -/
def pyStripChars (s : Chars) : Chars :=
  ((s.dropWhile pySpace).reverse.dropWhile pySpace).reverse

/-- Scan for the first unescaped close bracket; models the end of a
non-greedy `\[.*?\]` match.  Returns the characters after the bracket, or
`none` when a newline or the end of input intervenes (`.` does not match a
newline). -/
def findClose : Chars → Option Chars
  | [] => none
  | c :: rest =>
    if c = ']' then some rest
    else if c = Char.ofNat 10 then none
    else findClose rest

/-- Fuel-driven scanner behind `subBrackets`; every step consumes at least
one character and one unit of fuel, so fuel `s.length` never runs out. -/
def subBracketsAux : Nat → Chars → Chars
  | 0, _ => []
  | _ + 1, [] => []
  | fuel + 1, c :: cs =>
    if c = '[' then
      match findClose cs with
      | some rest => subBracketsAux fuel rest
      | none => c :: subBracketsAux fuel cs
    else c :: subBracketsAux fuel cs

/-- Python `re.sub(r'\[.*?\]', '', s)`: remove every bracketed reference
marker.  Each `[` is matched non-greedily with the first following `]`;
if none occurs before a newline or the end of input the `[` is kept. -/
def subBrackets (s : Chars) : Chars := subBracketsAux s.length s

/-- Scanner behind `collapseRuns`; `inRun` records whether the previous
character belonged to a whitespace run already replaced. -/
def collapseRunsAux (r : Char) (inRun : Bool) : Chars → Chars
  | [] => []
  | c :: cs =>
    if pySpace c then
      if inRun then collapseRunsAux r true cs
      else r :: collapseRunsAux r true cs
    else c :: collapseRunsAux r false cs

/-- Python `re.sub(r'\s+', r, s)` for a one-character replacement `r`:
replace every maximal whitespace run by `r`. -/
def collapseRuns (r : Char) (s : Chars) : Chars := collapseRunsAux r false s

/-- Fuel-driven scanner behind `replaceAll`; a nonempty pattern consumes at
least one character per replacement, so fuel `s.length` never runs out. -/
def replaceAllAux (patt repl : Chars) : Nat → Chars → Chars
  | 0, _ => []
  | _ + 1, [] => []
  | fuel + 1, c :: cs =>
    if patt ≠ [] ∧ patt.isPrefixOf (c :: cs) then
      repl ++ replaceAllAux patt repl fuel ((c :: cs).drop patt.length)
    else c :: replaceAllAux patt repl fuel cs

/-- Python `str.replace(patt, repl)`: replace every (leftmost,
non-overlapping) occurrence of a nonempty pattern. -/
def replaceAll (patt repl : Chars) (s : Chars) : Chars :=
  replaceAllAux patt repl s.length s

/-- Python `needle in hay` for strings: contiguous-substring test. -/
def containsSub (hay needle : Chars) : Bool :=
  needle.isPrefixOf hay ||
    match hay with
    | [] => false
    | _ :: t => containsSub t needle

/-- Python `str.lower()` (ASCII fragment). -/
def lowerChars (s : Chars) : Chars := s.map Char.toLower

/-- Scanner behind `wordRuns`; `cur` holds the reversed run in progress. -/
def wordRunsAux (cur : Chars) : Chars → List Chars
  | [] => if cur = [] then [] else [cur.reverse]
  | c :: cs =>
    if wordChar c then wordRunsAux (c :: cur) cs
    else if cur = [] then wordRunsAux [] cs
    else cur.reverse :: wordRunsAux [] cs

/-- Maximal runs of word characters; a regex bracketed by `\b` on both
sides whose body consists only of word characters matches exactly the runs
that belong to the pattern language, so `re.findall` of such a regex is a
filter over these runs. -/
def wordRuns (s : Chars) : List Chars := wordRunsAux [] s

/-- Python `int(token)` on an all-digit token. -/
def digitsToNat (s : Chars) : Option Nat :=
  if s ≠ [] ∧ s.all Char.isDigit then
    some (s.foldl (fun a c => a * 10 + (c.toNat - 48)) 0)
  else none

/-- Lexicographic comparison by character code points, as Python string
comparison orders the distinct elements handed to `sorted`. -/
def charsLe : Chars → Chars → Bool
  | [], _ => true
  | _ :: _, [] => false
  | x :: xs, y :: ys => if x = y then charsLe xs ys else decide (x < y)

/-- String comparison used when sorting tag lists. -/
def strLe (a b : String) : Bool := charsLe a.toList b.toList

/-- Insert into a sorted list of strings. -/
def insertSorted (a : String) : List String → List String
  | [] => [a]
  | b :: bs => if strLe a b then a :: b :: bs else b :: insertSorted a bs

/-- Sort a list of strings. -/
def sortStrings (l : List String) : List String := l.foldr insertSorted []

/-- Python `sorted(list(set(l)))`: the sorted deduplication of a list. -/
def pySortedSet (l : List String) : List String := sortStrings l.dedup

-- String-level wrappers ----------------------------------------------------

/-- Python `str.strip()` on `String`. -/
def pyStrip (s : String) : String := String.mk (pyStripChars s.toList)

/-- Python `str.lower()` on `String`. -/
def pyLower (s : String) : String := String.mk (lowerChars s.toList)

/-- Python `re.sub(r'\[.*?\]', '', s)` on `String`. -/
def subBracketsS (s : String) : String := String.mk (subBrackets s.toList)

/-- Python `re.sub(r'\s+', ' ', s)` on `String`. -/
def collapseWsS (s : String) : String := String.mk (collapseRuns ' ' s.toList)

/-- Python `needle in hay` on `String`. -/
def pyContains (hay needle : String) : Bool := containsSub hay.toList needle.toList

-- ===== Data model and reference tables =====

/-- UNESCO criteria classification (Python enum `CriteriaType`). -/
inductive CriteriaType where
  | CULTURAL
  | NATURAL
  | MIXED
  | UNKNOWN
deriving DecidableEq

/-- The `value` attribute of the Python enum member. -/
def CriteriaType.value : CriteriaType → String
  | CULTURAL => ("Cultural")
  | NATURAL => ("Natural")
  | MIXED => ("Mixed")
  | UNKNOWN => ("Unknown")

/-- One value of the country table (`_load_country_mappings` entries). -/
structure CountryInfo where
  iso : String
  continent : String
  region : String
deriving DecidableEq

/-- Country name → ISO code, continent and region (`_load_country_mappings`). -/
def country_mappings : List (String × CountryInfo) := [
  (("afghanistan"), ⟨("AF"), ("Asia"), ("South Asia")⟩),
  (("albania"), ⟨("AL"), ("Europe"), ("Southeast Europe")⟩),
  (("algeria"), ⟨("DZ"), ("Africa"), ("North Africa")⟩),
  (("argentina"), ⟨("AR"), ("South America"), ("South America")⟩),
  (("australia"), ⟨("AU"), ("Oceania"), ("Australia and New Zealand")⟩),
  (("austria"), ⟨("AT"), ("Europe"), ("Western Europe")⟩),
  (("bangladesh"), ⟨("BD"), ("Asia"), ("South Asia")⟩),
  (("belgium"), ⟨("BE"), ("Europe"), ("Western Europe")⟩),
  (("brazil"), ⟨("BR"), ("South America"), ("South America")⟩),
  (("cambodia"), ⟨("KH"), ("Asia"), ("Southeast Asia")⟩),
  (("canada"), ⟨("CA"), ("North America"), ("North America")⟩),
  (("china"), ⟨("CN"), ("Asia"), ("East Asia")⟩),
  (("colombia"), ⟨("CO"), ("South America"), ("South America")⟩),
  (("croatia"), ⟨("HR"), ("Europe"), ("Southeast Europe")⟩),
  (("czech republic"), ⟨("CZ"), ("Europe"), ("Eastern Europe")⟩),
  (("denmark"), ⟨("DK"), ("Europe"), ("Northern Europe")⟩),
  (("ecuador"), ⟨("EC"), ("South America"), ("South America")⟩),
  (("egypt"), ⟨("EG"), ("Africa"), ("North Africa")⟩),
  (("ethiopia"), ⟨("ET"), ("Africa"), ("East Africa")⟩),
  (("france"), ⟨("FR"), ("Europe"), ("Western Europe")⟩),
  (("germany"), ⟨("DE"), ("Europe"), ("Western Europe")⟩),
  (("greece"), ⟨("GR"), ("Europe"), ("Southern Europe")⟩),
  (("guatemala"), ⟨("GT"), ("North America"), ("Central America")⟩),
  (("india"), ⟨("IN"), ("Asia"), ("South Asia")⟩),
  (("indonesia"), ⟨("ID"), ("Asia"), ("Southeast Asia")⟩),
  (("iran"), ⟨("IR"), ("Asia"), ("Western Asia")⟩),
  (("iraq"), ⟨("IQ"), ("Asia"), ("Western Asia")⟩),
  (("italy"), ⟨("IT"), ("Europe"), ("Southern Europe")⟩),
  (("japan"), ⟨("JP"), ("Asia"), ("East Asia")⟩),
  (("jordan"), ⟨("JO"), ("Asia"), ("Western Asia")⟩),
  (("kenya"), ⟨("KE"), ("Africa"), ("East Africa")⟩),
  (("madagascar"), ⟨("MG"), ("Africa"), ("East Africa")⟩),
  (("malaysia"), ⟨("MY"), ("Asia"), ("Southeast Asia")⟩),
  (("mexico"), ⟨("MX"), ("North America"), ("North America")⟩),
  (("morocco"), ⟨("MA"), ("Africa"), ("North Africa")⟩),
  (("nepal"), ⟨("NP"), ("Asia"), ("South Asia")⟩),
  (("netherlands"), ⟨("NL"), ("Europe"), ("Western Europe")⟩),
  (("new zealand"), ⟨("NZ"), ("Oceania"), ("Australia and New Zealand")⟩),
  (("norway"), ⟨("NO"), ("Europe"), ("Northern Europe")⟩),
  (("pakistan"), ⟨("PK"), ("Asia"), ("South Asia")⟩),
  (("peru"), ⟨("PE"), ("South America"), ("South America")⟩),
  (("poland"), ⟨("PL"), ("Europe"), ("Eastern Europe")⟩),
  (("portugal"), ⟨("PT"), ("Europe"), ("Southern Europe")⟩),
  (("romania"), ⟨("RO"), ("Europe"), ("Eastern Europe")⟩),
  (("russia"), ⟨("RU"), ("Europe"), ("Eastern Europe")⟩),
  (("senegal"), ⟨("SN"), ("Africa"), ("West Africa")⟩),
  (("south africa"), ⟨("ZA"), ("Africa"), ("Southern Africa")⟩),
  (("spain"), ⟨("ES"), ("Europe"), ("Southern Europe")⟩),
  (("sri lanka"), ⟨("LK"), ("Asia"), ("South Asia")⟩),
  (("sweden"), ⟨("SE"), ("Europe"), ("Northern Europe")⟩),
  (("switzerland"), ⟨("CH"), ("Europe"), ("Western Europe")⟩),
  (("syria"), ⟨("SY"), ("Asia"), ("Western Asia")⟩),
  (("tanzania"), ⟨("TZ"), ("Africa"), ("East Africa")⟩),
  (("thailand"), ⟨("TH"), ("Asia"), ("Southeast Asia")⟩),
  (("tunisia"), ⟨("TN"), ("Africa"), ("North Africa")⟩),
  (("turkey"), ⟨("TR"), ("Asia"), ("Western Asia")⟩),
  (("ukraine"), ⟨("UA"), ("Europe"), ("Eastern Europe")⟩),
  (("united kingdom"), ⟨("GB"), ("Europe"), ("Northern Europe")⟩),
  (("united states"), ⟨("US"), ("North America"), ("North America")⟩),
  (("vietnam"), ⟨("VN"), ("Asia"), ("Southeast Asia")⟩),
  (("yemen"), ⟨("YE"), ("Asia"), ("Western Asia")⟩),
  (("zimbabwe"), ⟨("ZW"), ("Africa"), ("Southern Africa")⟩)]

/-- UNESCO criteria code → base type and description (`_load_criteria_mappings`). -/
def criteria_mappings : List (String × CriteriaType × String) := [
  (("i"), CriteriaType.CULTURAL, ("Masterpiece of human creative genius")),
  (("ii"), CriteriaType.CULTURAL, ("Important interchange of human values")),
  (("iii"), CriteriaType.CULTURAL, ("Testimony to cultural tradition or civilization")),
  (("iv"), CriteriaType.CULTURAL, ("Outstanding example of architectural/technological ensemble")),
  (("v"), CriteriaType.CULTURAL, ("Outstanding example of human settlement/land use")),
  (("vi"), CriteriaType.CULTURAL, ("Associated with events/traditions/beliefs/artistic works")),
  (("vii"), CriteriaType.NATURAL, ("Contains superlative natural phenomena")),
  (("viii"), CriteriaType.NATURAL, ("Outstanding example of major stages of earth history")),
  (("ix"), CriteriaType.NATURAL, ("Outstanding example of ecological/biological processes")),
  (("x"), CriteriaType.NATURAL, ("Contains important/significant natural habitats for biodiversity"))]

/-- Region → continent table (`_load_region_mappings`; loaded by the
pipeline constructor but referenced by no stage). -/
def region_mappings : List (String × String) := [
  (("South Asia"), ("Asia")),
  (("Southeast Asia"), ("Asia")),
  (("East Asia"), ("Asia")),
  (("Western Asia"), ("Asia")),
  (("Central Asia"), ("Asia")),
  (("Western Europe"), ("Europe")),
  (("Eastern Europe"), ("Europe")),
  (("Southern Europe"), ("Europe")),
  (("Northern Europe"), ("Europe")),
  (("Southeast Europe"), ("Europe")),
  (("North Africa"), ("Africa")),
  (("West Africa"), ("Africa")),
  (("East Africa"), ("Africa")),
  (("Southern Africa"), ("Africa")),
  (("Central Africa"), ("Africa")),
  (("North America"), ("North America")),
  (("Central America"), ("North America")),
  (("South America"), ("South America")),
  (("Australia and New Zealand"), ("Oceania")),
  (("Melanesia"), ("Oceania")),
  (("Micronesia"), ("Oceania")),
  (("Polynesia"), ("Oceania"))]

/-- Region inference keyword table (`_infer_region_from_location`),
in Python dict insertion order: first matching region wins. -/
def region_keywords : List (String × List String) := [
  (("South Asia"), [("india"), ("pakistan"), ("bangladesh"), ("sri lanka"), ("nepal"), ("bhutan")]),
  (("Southeast Asia"), [("thailand"), ("vietnam"), ("cambodia"), ("laos"), ("myanmar"), ("malaysia"), ("singapore"), ("indonesia"), ("philippines")]),
  (("East Asia"), [("china"), ("japan"), ("korea"), ("mongolia"), ("taiwan")]),
  (("Western Asia"), [("turkey"), ("syria"), ("iraq"), ("iran"), ("lebanon"), ("jordan"), ("israel"), ("palestine")]),
  (("Western Europe"), [("france"), ("germany"), ("netherlands"), ("belgium"), ("switzerland"), ("austria")]),
  (("Southern Europe"), [("italy"), ("spain"), ("greece"), ("portugal"), ("malta"), ("croatia")]),
  (("Northern Europe"), [("norway"), ("sweden"), ("denmark"), ("finland"), ("iceland"), ("uk"), ("britain")]),
  (("Eastern Europe"), [("poland"), ("czech"), ("slovakia"), ("hungary"), ("romania"), ("bulgaria"), ("russia")]),
  (("North Africa"), [("egypt"), ("libya"), ("tunisia"), ("algeria"), ("morocco"), ("sudan")]),
  (("West Africa"), [("senegal"), ("mali"), ("ghana"), ("nigeria"), ("benin"), ("burkina faso")]),
  (("East Africa"), [("kenya"), ("tanzania"), ("ethiopia"), ("uganda"), ("madagascar")]),
  (("Southern Africa"), [("south africa"), ("zimbabwe"), ("botswana"), ("namibia"), ("zambia")])]

/-- Keywords of `_check_endangered_status`. -/
def endangered_keywords : List String :=
  [("endangered"), ("threat"), ("risk"), ("damage"), ("destruction"), ("conflict"), ("war")]

/-- Architecture keyword groups of `_generate_tags`. -/
def arch_keywords : List (String × List String) := [
  (("temple"), [("temple"), ("shrine"), ("pagoda"), ("monastery")]),
  (("castle"), [("castle"), ("fortress"), ("fort"), ("palace")]),
  (("church"), [("church"), ("cathedral"), ("basilica"), ("abbey")]),
  (("ancient"), [("ancient"), ("prehistoric"), ("archaeological")]),
  (("historic_center"), [("historic center"), ("old town"), ("historic city")]),
  (("industrial"), [("industrial"), ("mining"), ("railway"), ("factory")])]

/-- Nature keyword groups of `_generate_tags`. -/
def nature_keywords : List (String × List String) := [
  (("national_park"), [("national park"), ("park")]),
  (("mountain"), [("mountain"), ("mount"), ("peak"), ("range")]),
  (("forest"), [("forest"), ("rainforest"), ("woodland")]),
  (("marine"), [("marine"), ("reef"), ("ocean"), ("sea")]),
  (("desert"), [("desert")]),
  (("volcanic"), [("volcanic"), ("volcano")]),
  (("cave"), [("cave"), ("cavern"), ("grotto")])]

/-- Prefix list of `_normalize_name`, in source order. -/
def namePrefixList : List String :=
  [("the "), ("historic "), ("archaeological "), ("national park of "), ("ruins of ")]

/-- Suffix list of `_normalize_name`, in source order. -/
def nameSuffixList : List String :=
  [(" national park"), (" archaeological site"), (" historic site")]

/-- The canonical entity (Python dataclass `StandardizedSite`). -/
structure StandardizedSite where
  id : String
  name : String
  normalized_name : String
  country : String
  iso_country_code : Option String
  region : Option String
  continent : Option String
  location : String
  coordinates : Option (ℚ × ℚ)
  inscription_year : Int
  criteria_type : CriteriaType
  criteria_numbers : List String
  criteria_description : String
  endangered_status : Bool
  area_hectares : Option ℚ
  buffer_zone_hectares : Option ℚ
  description : Option String
  tags : List String
  last_updated : String
  data_quality_score : ℚ
  source_url : Option String
deriving DecidableEq

/-- A dynamically typed raw-record field value: the pipeline is exercised
with strings, but nothing stops a caller from passing an `int`. -/
inductive PyVal where
  | str (s : String)
  | int (n : Int)
deriving DecidableEq

/-- A raw input record: a mapping whose keys may be absent. -/
structure RawRecord where
  name : Option PyVal
  country : Option PyVal
  location : Option PyVal
  year : Option PyVal
  criteria : Option PyVal
deriving DecidableEq

/-- Output of `_clean_data`. -/
structure CleanedSite where
  name : String
  country : String
  location : String
  year : String
  criteria : String
deriving DecidableEq

/-- Python `str(v)`. -/
def pyValToStr : PyVal → String
  | PyVal.str s => s
  | PyVal.int n => toString n

/-- Python `d.get(key, default)` followed by a string method call: a
non-string value has no `.strip()` and raises `AttributeError`, modelled
as `Except.error`. -/
def getFieldStr (v : Option PyVal) (dflt : String) : Except String String :=
  match v.getD (PyVal.str dflt) with
  | PyVal.str s => Except.ok s
  | PyVal.int _ => Except.error ("AttributeError")

-- ===== Stage 1: cleaning (`_clean_data`, `_normalize_unicode`) =====

/-- Characters kept by `_normalize_unicode`: complement of the removal
class in `re.sub(r'[^\w\s\-.,()\x27\x22/:&]', '', text)`. -/
def keepChar (c : Char) : Bool :=
  wordChar c || pySpace c ||
  c = '-' || c = '.' || c = ',' || c = '(' || c = ')' ||
  c = Char.ofNat 39 || c = Char.ofNat 34 || c = '/' || c = ':' || c = '&'

/-- Python `_normalize_unicode`: NFKD (identity on the modelled ASCII
fragment), drop problematic characters, strip. -/
def _normalize_unicode (text : String) : String :=
  if text = ("") then text
  else String.mk (pyStripChars ((text.toList).filter keepChar))

/-- The cleaning applied to each of name, country and location:
strip, remove bracketed reference markers, collapse whitespace runs to a
single space, Unicode-normalize. -/
def cleanTextField (s : String) : String :=
  _normalize_unicode (collapseWsS (subBracketsS (pyStrip s)))

/-- Python `_clean_data`.  A non-string name, country, location or criteria
raises (`.strip()` on a non-string) and is modelled as `Except.error`; the
year is passed through `str()` first and never raises.  The location
default is the already-cleaned country, as in the source. -/
def _clean_data (r : RawRecord) : Except String CleanedSite := do
  let name ← getFieldStr r.name ("")
  let name := cleanTextField name
  let country ← getFieldStr r.country ("")
  let country := cleanTextField country
  let loc ← getFieldStr r.location country
  let loc := cleanTextField loc
  let year := pyStrip (pyValToStr (r.year.getD (PyVal.str ("Unknown"))))
  let crit ← getFieldStr r.criteria ("Unknown")
  let crit := subBracketsS (pyStrip crit)
  pure { name := name, country := country, location := loc, year := year, criteria := crit }

-- ===== Stage 2: validation (`_validate_cleaned_data`) =====

/-- Python `_validate_cleaned_data`. -/
def _validate_cleaned_data (c : CleanedSite) : Bool :=
  if c.name = ("") ∨ c.name.length < 3 then false
  else if c.country = ("") ∨ c.country.length < 2 then false
  else true

-- ===== Stage 3: standardization =====

/-- Python `_generate_site_id`: lowercase `"{name}_{country}"`, drop every
character that is neither a word character nor whitespace, replace each
whitespace run by an underscore, truncate to 50 characters. -/
def _generate_site_id (name country : String) : String :=
  let n := lowerChars ((name ++ ("_") ++ country).toList)
  let n := n.filter (fun c => wordChar c || pySpace c)
  let n := collapseRuns '_' n
  String.mk (n.take 50)

/-- Python `_normalize_name`: lowercase, then one pass over the prefix
list and one pass over the suffix list, each entry being stripped whenever
it matches the current string (the source loops have no break). -/
def _normalize_name (name : String) : String :=
  let n := lowerChars name.toList
  let n := namePrefixList.foldl
    (fun acc p => if (p.toList).isPrefixOf acc then acc.drop p.length else acc) n
  let n := nameSuffixList.foldl
    (fun acc sfx => if (sfx.toList).isSuffixOf acc then acc.take (acc.length - sfx.length) else acc) n
  String.mk (pyStripChars n)

/-- A word run matching `\b(19|20)\d{2}\b`: exactly four digits starting
with 19 or 20 (such a match must cover a whole word run). -/
def yearRun (r : Chars) : Bool :=
  r.length = 4 && r.all Char.isDigit &&
    (decide (r.take 2 = ['1', '9']) || decide (r.take 2 = ['2', '0']))

/-- Python `_parse_year`. -/
def _parse_year (y : String) : Int :=
  if y = ("") ∨ pyLower y = ("unknown") then 0
  else
    match (wordRuns y.toList).find? yearRun with
    | some r => ((digitsToNat r).getD 0 : Nat)
    | none => 0

/-- The whole-word tokens matched by `\b(?:i{1,3}v?|vi{0,3}|i?x)\b`: the
language of the alternation.  Note `iiv` and `iiiv` are matched although
they are not criteria codes. -/
def romanTokens : List String :=
  [("i"), ("ii"), ("iii"), ("iv"), ("iiv"), ("iiiv"),
   ("v"), ("vi"), ("vii"), ("viii"), ("x"), ("ix")]

/-- Python `re.findall(r'\b(?:i{1,3}v?|vi{0,3}|i?x)\b', s.lower())`:
whole word runs of the lowercased text that belong to the pattern
language. -/
def findRomanTokens (s : String) : List String :=
  ((wordRuns (lowerChars s.toList)).map String.mk).filter
    (fun t => decide (t ∈ romanTokens))

/-- Tokens matched by `\b([1-9]|10)\b`. -/
def digitTokens : List String :=
  [("1"), ("2"), ("3"), ("4"), ("5"), ("6"), ("7"), ("8"), ("9"), ("10")]

/-- Python `re.findall(r'\b([1-9]|10)\b', s)` (run on the original,
non-lowercased criteria string). -/
def findNumberTokens (s : String) : List String :=
  ((wordRuns s.toList).map String.mk).filter (fun t => decide (t ∈ digitTokens))

/-- The dict of `_convert_to_roman`. -/
def romanPairs : List (Nat × String) :=
  [(1, ("i")), (2, ("ii")), (3, ("iii")), (4, ("iv")), (5, ("v")),
   (6, ("vi")), (7, ("vii")), (8, ("viii")), (9, ("ix")), (10, ("x"))]

/-- Python `_convert_to_roman`: `romans.get(num, str(num))`. -/
def _convert_to_roman (num : Nat) : String :=
  ((romanPairs.find? (fun p => decide (p.1 = num))).map (fun p => p.2)).getD (toString num)

/-- Python `int(token)` for the digit tokens, total with default 0. -/
def tokenToNat (t : String) : Nat := (digitsToNat t.toList).getD 0

/-- The `criteria_numbers` extraction of `_parse_criteria`: Roman-numeral
tokens, falling back to plain integers 1–10 converted to Roman form. -/
def extract_criteria_numbers (s : String) : List String :=
  let roman := findRomanTokens s
  if roman.isEmpty then
    (findNumberTokens s).filterMap
      (fun n => if 1 ≤ tokenToNat n ∧ tokenToNat n ≤ 10 then some (_convert_to_roman (tokenToNat n)) else none)
  else roman

/-- Criteria-code lookup (`criteria_num in self.criteria_mappings`). -/
def lookupCriteria (n : String) : Option (CriteriaType × String) :=
  (criteria_mappings.find? (fun e => decide (e.1 = n))).map (fun e => e.2)

/-- The type-accumulation loop of `_parse_criteria`: first recognized type
wins, a second different type promotes to `MIXED`. -/
def accumType : CriteriaType → List String → CriteriaType
  | t, [] => t
  | t, n :: ns =>
    match lookupCriteria n with
    | none => accumType t ns
    | some m =>
      accumType
        (if t = CriteriaType.UNKNOWN then m.1
         else if t ≠ m.1 then CriteriaType.MIXED else t) ns

/-- Python `_parse_criteria`.  The single loop of the source accumulates
the type and the description list together; they are computed here by two
traversals of the same token list, which agree with the source loop. -/
def _parse_criteria (s : String) : CriteriaType × List String × String :=
  if s = ("") ∨ pyLower s = ("unknown") then
    (CriteriaType.UNKNOWN, [], ("Unknown criteria"))
  else
    let nums := extract_criteria_numbers s
    let descs := nums.filterMap (fun n => (lookupCriteria n).map (fun m => m.2))
    (accumType CriteriaType.UNKNOWN nums, nums,
     if descs.isEmpty then s else String.intercalate ("; ") descs)

/-- Python `_standardize_data`; `now` stands for
`datetime.now().isoformat()`. -/
def _standardize_data (now : String) (c : CleanedSite) : StandardizedSite :=
  { id := _generate_site_id c.name c.country
    name := c.name
    normalized_name := _normalize_name c.name
    country := c.country
    iso_country_code := none
    region := none
    continent := none
    location := c.location
    coordinates := none
    inscription_year := _parse_year c.year
    criteria_type := (_parse_criteria c.criteria).1
    criteria_numbers := (_parse_criteria c.criteria).2.1
    criteria_description := (_parse_criteria c.criteria).2.2
    endangered_status := false
    area_hectares := none
    buffer_zone_hectares := none
    description := none
    tags := []
    last_updated := now
    data_quality_score := 0
    source_url := none }

-- ===== Stage 4: enrichment (`_enrich_data`) =====

/-- Python truthiness of an optional string field (`if not site.region`). -/
def optFalsy : Option String → Bool
  | none => true
  | some s => decide (s = "")

/-- The candidate country keys tried by `_enrich_data`, in order: the
lowercased stripped country (first comma segment when multi-country), the
key with `"the "` removed, with `" of"` removed, and the part before a
parenthetical. -/
def countryVariations (country : String) : List String :=
  let key0 := pyStrip (pyLower country)
  let key :=
    if pyContains key0 (",") then
      pyStrip (String.mk (key0.toList.takeWhile (fun c => c ≠ ',')))
    else key0
  [key,
   String.mk (replaceAll ("the ").toList [] key.toList),
   String.mk (replaceAll (" of").toList [] key.toList),
   if pyContains key ("(") then
     pyStrip (String.mk (key.toList.takeWhile (fun c => c ≠ '(')))
   else key]

/-- First country-table hit among the variations. -/
def lookupCountryInfo (country : String) : Option CountryInfo :=
  (countryVariations country).findSome?
    (fun v => (country_mappings.find? (fun e => decide (e.1 = v))).map (fun e => e.2))

/-- Python `_infer_region_from_location`: first region whose any keyword is
a substring of the lowercased location. -/
def _infer_region_from_location (location : String) : Option String :=
  region_keywords.findSome?
    (fun rk =>
      if rk.2.any (fun kw => containsSub (lowerChars location.toList) kw.toList) then some rk.1
      else none)

/-- Python `_check_endangered_status`. -/
def _check_endangered_status (name criteria : String) : Bool :=
  endangered_keywords.any
    (fun kw => containsSub (lowerChars ((name ++ (" ") ++ criteria)).toList) kw.toList)

/-- Python `_enrich_data` (pure part; the `enriched` statistics counter is
incremented by the pipeline model). -/
def _enrich_data (site : StandardizedSite) : StandardizedSite :=
  let site1 :=
    match lookupCountryInfo site.country with
    | some m =>
      { site with
        iso_country_code := some m.iso
        continent := some m.continent
        region := some m.region }
    | none => site
  let site2 :=
    if optFalsy site1.region ∧ site1.location ≠ ("") then
      { site1 with region := _infer_region_from_location site1.location }
    else site1
  { site2 with
    endangered_status := _check_endangered_status site2.name site2.criteria_description }

-- ===== Stage 5: quality scoring (`_calculate_quality_score`) =====

/-- The ten boolean checks of `_calculate_quality_score`, in source order;
each passing check contributes one point. -/
def _quality_checks (site : StandardizedSite) : List Bool :=
  [decide (site.name ≠ ("")) && decide (5 ≤ site.name.length),
   !(optFalsy site.iso_country_code),
   !(optFalsy site.region),
   !(optFalsy site.continent),
   decide (0 < site.inscription_year),
   decide (site.criteria_type ≠ CriteriaType.UNKNOWN),
   !(site.criteria_numbers.isEmpty),
   decide (site.location ≠ site.country),
   decide (20 < site.criteria_description.length),
   decide (site.last_updated ≠ (""))]

/-- Python `_calculate_quality_score`: passing checks over `max_score`. -/
def _calculate_quality_score (site : StandardizedSite) : ℚ :=
  Rat.divInt ((_quality_checks site).countP (fun b => b)) 10

-- ===== Stage 6: tag generation (`_generate_tags`) =====

/-- Lowercase with spaces replaced by underscores (region/country tags). -/
def tagify (s : String) : String :=
  String.mk (replaceAll [' '] ['_'] (lowerChars s.toList))

/-- The quality-tier tag appended last by `_generate_tags`. -/
def _quality_tier_tag (q : ℚ) : String :=
  if Rat.divInt 8 10 ≤ q then ("high_quality_data")
  else if Rat.divInt 6 10 ≤ q then ("medium_quality_data")
  else ("low_quality_data")

/-- Every tag inserted by `_generate_tags` before the quality tier tag,
in source order (the Python code inserts into a set; order is irrelevant
after the final sorted deduplication). -/
def _pre_tags (site : StandardizedSite) : List String :=
  [pyLower site.criteria_type.value] ++
  (if optFalsy site.continent then [] else [pyLower (site.continent.getD (""))]) ++
  (if optFalsy site.region then [] else [tagify (site.region.getD (""))]) ++
  (if site.country ≠ ("") then [tagify site.country] else []) ++
  (if 0 < site.inscription_year then
    [toString ((site.inscription_year / 10) * 10) ++ ("s"),
     if site.inscription_year < 1980 then ("early_inscription")
     else if site.inscription_year < 2000 then ("mid_inscription")
     else ("recent_inscription")]
   else []) ++
  (arch_keywords.filterMap
    (fun tk => if tk.2.any (fun kw => containsSub (lowerChars site.name.toList) kw.toList) then some tk.1 else none)) ++
  (nature_keywords.filterMap
    (fun tk => if tk.2.any (fun kw => containsSub (lowerChars site.name.toList) kw.toList) then some tk.1 else none)) ++
  (if site.endangered_status then [("endangered")] else [])

/-- Python `_generate_tags`: `sorted(list(set(tags)))`. -/
def _generate_tags (site : StandardizedSite) : List String :=
  pySortedSet (_pre_tags site ++ [_quality_tier_tag site.data_quality_score])

-- ===== Orchestrator (`transform_pipeline`) =====

/-- The run statistics (`transformation_stats`). -/
structure PipelineStats where
  processed : Nat
  transformed : Nat
  enriched : Nat
  errors : Nat
  quality_scores : List ℚ
deriving DecidableEq

/-- Fresh statistics of a newly constructed pipeline. -/
def initStats : PipelineStats :=
  { processed := 0, transformed := 0, enriched := 0, errors := 0, quality_scores := [] }

/-- Stages 3–6 applied to a record that passed validation: standardize,
enrich, write the quality score into the entity, then write the tags;
returns the finished entity together with its score. -/
def processValidRecord (now : String) (c : CleanedSite) : StandardizedSite × ℚ :=
  let s := _standardize_data now c
  let e := _enrich_data s
  let q := _calculate_quality_score e
  let e1 := { e with data_quality_score := q }
  ({ e1 with tags := _generate_tags e1 }, q)

/-- One loop iteration of `transform_pipeline`: clean, validate, then
standardize/enrich/score/tag; `processed` always increments, exactly one
of `transformed` and `errors` increments. -/
def pipelineStep (now : String) (acc : List StandardizedSite × PipelineStats) (r : RawRecord) :
    List StandardizedSite × PipelineStats :=
  let sites := acc.1
  let st := { acc.2 with processed := acc.2.processed + 1 }
  match _clean_data r with
  | Except.error _ => (sites, { st with errors := st.errors + 1 })
  | Except.ok c =>
    if _validate_cleaned_data c then
      (sites ++ [(processValidRecord now c).1],
       { st with
         enriched := st.enriched + 1
         quality_scores := st.quality_scores ++ [(processValidRecord now c).2]
         transformed := st.transformed + 1 })
    else (sites, { st with errors := st.errors + 1 })

/-- Python `transform_pipeline`, started from fresh statistics. -/
def transform_pipeline (now : String) (raws : List RawRecord) :
    List StandardizedSite × PipelineStats :=
  raws.foldl (pipelineStep now) ([], initStats)

-- ===== Dataset validation (`validate_transformed_data`) =====

/-- A dataset validation error; the source formats these as strings, here
they are kept structured (the Python duplicate-ID message interpolates a
set, whose textual order is unspecified). -/
inductive VError where
  | duplicateIds (ids : List String)
  | missingField (field : String) (count : Nat)
  | invalidYears (count : Nat)
deriving DecidableEq

/-- A dataset validation warning. -/
inductive VWarning where
  | lowQuality (count : Nat)
  | missingRegion (count : Nat)
deriving DecidableEq

/-- The `quality_checks` summary of the validation report. -/
structure QualityChecksSummary where
  duplicate_ids : Nat
  missing_required_fields : Nat
  low_quality_sites : Nat
  missing_region_data : Nat
  invalid_years : Nat
  average_quality_score : ℚ
deriving DecidableEq

/-- The dataset validation report. -/
structure ValidationReport where
  total_sites : Nat
  validation_passed : Bool
  errors : List VError
  warnings : List VWarning
  quality_checks : QualityChecksSummary
deriving DecidableEq

/-- Python `validate_transformed_data`. -/
def validate_transformed_data (sites : List StandardizedSite) : ValidationReport :=
  let ids := sites.map (fun s => s.id)
  let duplicates := ids.filter (fun i => 1 < ids.count i)
  let missId := (sites.filter (fun s => decide (s.id = ("")))).length
  let missName := (sites.filter (fun s => decide (s.name = ("")))).length
  let missCountry := (sites.filter (fun s => decide (s.country = ("")))).length
  let lowQuality := (sites.filter (fun s => decide (s.data_quality_score < Rat.divInt 5 10))).length
  let noRegion := (sites.filter (fun s => optFalsy s.region)).length
  let invalidYears :=
    (sites.filter
      (fun s => decide (0 < s.inscription_year ∧ (s.inscription_year < 1900 ∨ 2030 < s.inscription_year)))).length
  { total_sites := sites.length
    validation_passed :=
      duplicates.isEmpty && decide (missId = 0) && decide (missName = 0) &&
      decide (missCountry = 0) && decide (invalidYears = 0)
    errors :=
      (if duplicates.isEmpty then [] else [VError.duplicateIds duplicates.dedup]) ++
      (if 0 < missId then [VError.missingField ("id") missId] else []) ++
      (if 0 < missName then [VError.missingField ("name") missName] else []) ++
      (if 0 < missCountry then [VError.missingField ("country") missCountry] else []) ++
      (if 0 < invalidYears then [VError.invalidYears invalidYears] else [])
    warnings :=
      (if (lowQuality : ℚ) > (sites.length : ℚ) * Rat.divInt 2 10 then [VWarning.lowQuality lowQuality] else []) ++
      (if (noRegion : ℚ) > (sites.length : ℚ) * Rat.divInt 3 10 then [VWarning.missingRegion noRegion] else [])
    quality_checks :=
      { duplicate_ids := duplicates.dedup.length
        missing_required_fields := missId + missName + missCountry
        low_quality_sites := lowQuality
        missing_region_data := noRegion
        invalid_years := invalidYears
        average_quality_score :=
          if sites.length = 0 then 0
          else ((sites.map (fun s => s.data_quality_score)).sum) / (sites.length : ℚ) } }

-- ===== Definitions written from the claim texts (refinement targets) =====

/-- Claim C1's wording of the whitespace handling: each maximal run of
whitespace replaced by a single underscore (written independently of
`collapseRuns`, by two-character lookahead). -/
def runsToUnderscore : Chars → Chars
  | [] => []
  | [c] => if pySpace c then ['_'] else [c]
  | c :: d :: rest =>
    if pySpace c then
      (if pySpace d then runsToUnderscore (d :: rest)
       else '_' :: runsToUnderscore (d :: rest))
    else c :: runsToUnderscore (d :: rest)

/-- Claim C1's id formula: the lowercased `"{name}_{country}"` with every
character that is neither a word character nor whitespace removed, each
whitespace run replaced by a single underscore, truncated to its first 50
characters. -/
def c1IdSpec (name country : String) : String :=
  String.mk
    ((runsToUnderscore
      ((lowerChars ((name ++ ("_") ++ country)).toList).filter
        (fun c => wordChar c || pySpace c))).take 50)

/-- Strip, in list order, every prefix that matches the current string;
each list entry is removed at most once (amended claim C5, written as
plain recursion over the list). -/
def stripEachMatchingPrefixInOrder : List String → Chars → Chars
  | [], s => s
  | p :: ps, s =>
    stripEachMatchingPrefixInOrder ps
      (if (p.toList).isPrefixOf s then s.drop p.length else s)

/-- Strip, in list order, every suffix that matches the current string
(amended claim C5). -/
def stripEachMatchingSuffixInOrder : List String → Chars → Chars
  | [], s => s
  | x :: xs, s =>
    stripEachMatchingSuffixInOrder xs
      (if (x.toList).isSuffixOf s then s.take (s.length - x.length) else s)

/-- Amended claim C5's name normalization. -/
def c5AmendedNormalize (name : String) : String :=
  String.mk
    (pyStripChars
      (stripEachMatchingSuffixInOrder nameSuffixList
        (stripEachMatchingPrefixInOrder namePrefixList (lowerChars name.toList))))

/-- Every outcome permitted by claim C5 as stated: lowercase, remove at
most one matching prefix of the fixed list, then at most one matching
suffix, with or without a final whitespace strip. -/
def c5ClaimOutcomes (name : String) : List String :=
  let n := lowerChars name.toList
  let afterP :=
    n :: (namePrefixList.filterMap
      (fun p => if (p.toList).isPrefixOf n then some (n.drop p.length) else none))
  let afterS :=
    afterP.flatMap
      (fun m => m :: (nameSuffixList.filterMap
        (fun x => if (x.toList).isSuffixOf m then some (m.take (m.length - x.length)) else none)))
  (afterS.flatMap (fun m => [m, pyStripChars m])).map String.mk

/-- Claim C6's description of the year and criteria cleaning: coerce to
string, strip surrounding whitespace, strip bracketed reference markers. -/
def c6ClaimFieldSpec (v : PyVal) : String := subBracketsS (pyStrip (pyValToStr v))

/-- The three quality-tier labels of claim C4. -/
def tierLabels : List String :=
  [("high_quality_data"), ("medium_quality_data"), ("low_quality_data")]

/-- The ten UNESCO criteria codes of claim C7. -/
def tenCriteriaCodes : List String :=
  [("i"), ("ii"), ("iii"), ("iv"), ("v"), ("vi"), ("vii"), ("viii"), ("ix"), ("x")]

/-- Whether some token of the list is a recognized code of the given base
type (claim C2). -/
def hasTypeAmong (t : CriteriaType) (ns : List String) : Bool :=
  ns.any (fun n =>
    match lookupCriteria n with
    | some m => decide (m.1 = t)
    | none => false)

-- ===== Concrete records used by witnesses and counterexamples =====

/-- A cleaned record with no enrichable data: unknown country, location
equal to the country, year and criteria `"Unknown"` (claim C3). -/
def minimalClean : CleanedSite :=
  { name := ("Mystery Place"), country := ("Atlantis"), location := ("Atlantis"),
    year := ("Unknown"), criteria := ("Unknown") }

/-- A base entity used to build concrete sites compactly. -/
def baseSite : StandardizedSite :=
  { id := ("site"), name := ("Somewhere"), normalized_name := ("somewhere"),
    country := ("Nowhere"), iso_country_code := none, region := none,
    continent := none, location := ("Nowhere"), coordinates := none,
    inscription_year := 0, criteria_type := CriteriaType.UNKNOWN,
    criteria_numbers := [], criteria_description := ("Unknown criteria"),
    endangered_status := false, area_hectares := none,
    buffer_zone_hectares := none, description := none, tags := [],
    last_updated := ("2024-01-01T00:00:00"), data_quality_score := 0,
    source_url := none }

/-- A raw record whose country is literally "High Quality Data": after the
pipeline, its country tag collides with a quality-tier label (claim C4). -/
def c4CexRaw : RawRecord :=
  { name := some (PyVal.str ("Somewhere")),
    country := some (PyVal.str ("High Quality Data")),
    location := none, year := none, criteria := none }

/-- An ordinary entity for the amended claim C4 witness. -/
def c4WitSite : StandardizedSite :=
  { baseSite with
    country := ("France")
    data_quality_score := Rat.divInt 9 10 }

/-- Raw record: plain spellings (claim C1 witness). -/
def c1WitRaw1 : RawRecord :=
  { name := some (PyVal.str ("Angkor Wat")), country := some (PyVal.str ("Cambodia")),
    location := none, year := none, criteria := none }

/-- Raw record: same name and country up to cleaning (claim C1 witness). -/
def c1WitRaw2 : RawRecord :=
  { name := some (PyVal.str ("  Angkor   Wat ")), country := some (PyVal.str ("Cambodia[1]")),
    location := none, year := none, criteria := none }

/-- Raw record whose year field carries a bracketed reference marker
(claim C6 counterexample). -/
def c6CexRawYear : RawRecord :=
  { name := some (PyVal.str ("Temple of Time")), country := some (PyVal.str ("France")),
    location := none, year := some (PyVal.str ("[1] 1992")), criteria := none }

/-- Raw record whose criteria field is an `int` (claim C6
counterexample). -/
def c6CexRawCrit : RawRecord :=
  { name := some (PyVal.str ("Temple of Time")), country := some (PyVal.str ("France")),
    location := none, year := none, criteria := some (PyVal.int 7) }

/-- Raw record with string fields (claim C6 witness). -/
def c6WitRaw : RawRecord :=
  { name := some (PyVal.str ("Temple of Time")), country := some (PyVal.str ("France")),
    location := none, year := some (PyVal.int 1992),
    criteria := some (PyVal.str (" Cultural (i)[2] ")) }

/-- Two entities with the same id (claim C8 duplicate-id instance). -/
def c8DupSites : List StandardizedSite :=
  [{ baseSite with id := ("dup_site"), name := ("First Site") },
   { baseSite with id := ("dup_site"), name := ("Second Site") }]

-- ===== Theorems =====

theorem pipelineStep_clean_error (now : String) (sites : List StandardizedSite)
    (st : PipelineStats) (r : RawRecord) (e : String) (h : _clean_data r = Except.error e) :
    pipelineStep now (sites, st) r =
      (sites, { st with processed := st.processed + 1, errors := st.errors + 1 }) := by
  simp [pipelineStep, h]

theorem pipelineStep_ok_valid (now : String) (sites : List StandardizedSite)
    (st : PipelineStats) (r : RawRecord) (c : CleanedSite) (h : _clean_data r = Except.ok c)
    (hv : _validate_cleaned_data c = true) :
    pipelineStep now (sites, st) r =
      (sites ++ [(processValidRecord now c).1],
       { st with
         processed := st.processed + 1
         enriched := st.enriched + 1
         quality_scores := st.quality_scores ++ [(processValidRecord now c).2]
         transformed := st.transformed + 1 }) := by
  simp [pipelineStep, h, hv]

theorem pipelineStep_ok_invalid (now : String) (sites : List StandardizedSite)
    (st : PipelineStats) (r : RawRecord) (c : CleanedSite) (h : _clean_data r = Except.ok c)
    (hv : _validate_cleaned_data c = false) :
    pipelineStep now (sites, st) r =
      (sites, { st with processed := st.processed + 1, errors := st.errors + 1 }) := by
  simp [pipelineStep, h, hv]

theorem foldl_pipelineStep_invariant (now : String) :
    ∀ (raws : List RawRecord) (sites : List StandardizedSite) (st : PipelineStats),
      ((raws.foldl (pipelineStep now) (sites, st)).2.processed = st.processed + raws.length) ∧
      ((raws.foldl (pipelineStep now) (sites, st)).2.transformed +
        (raws.foldl (pipelineStep now) (sites, st)).2.errors
        = st.transformed + st.errors + raws.length) ∧
      ((raws.foldl (pipelineStep now) (sites, st)).1.length + st.transformed
        = sites.length + (raws.foldl (pipelineStep now) (sites, st)).2.transformed) := by
  intro raws
  induction raws with
  | nil => intro sites st; simp
  | cons r rs ih =>
    intro sites st
    simp only [List.foldl_cons]
    cases hc : _clean_data r with
    | error e =>
      rw [pipelineStep_clean_error now sites st r e hc]
      obtain ⟨h1, h2, h3⟩ :=
        ih sites ({ st with processed := st.processed + 1, errors := st.errors + 1 })
      simp at h1 h2 h3 ⊢
      omega
    | ok c =>
      cases hv : _validate_cleaned_data c with
      | true =>
        rw [pipelineStep_ok_valid now sites st r c hc hv]
        obtain ⟨h1, h2, h3⟩ :=
          ih (sites ++ [(processValidRecord now c).1])
            ({ st with
               processed := st.processed + 1
               enriched := st.enriched + 1
               quality_scores := st.quality_scores ++ [(processValidRecord now c).2]
               transformed := st.transformed + 1 })
        simp at h1 h2 h3 ⊢
        omega
      | false =>
        rw [pipelineStep_ok_invalid now sites st r c hc hv]
        obtain ⟨h1, h2, h3⟩ :=
          ih sites ({ st with processed := st.processed + 1, errors := st.errors + 1 })
        simp at h1 h2 h3 ⊢
        omega

/-- Claim C10: after a pipeline run from fresh statistics, `processed`
equals the number of input records, `processed = transformed + errors`,
and `transformed` equals the length of the returned collection. -/
theorem C10_pipeline_counters (now : String) (raws : List RawRecord) :
    (transform_pipeline now raws).2.processed = raws.length ∧
    (transform_pipeline now raws).2.processed =
      (transform_pipeline now raws).2.transformed + (transform_pipeline now raws).2.errors ∧
    (transform_pipeline now raws).2.transformed = (transform_pipeline now raws).1.length := by
  obtain ⟨h1, h2, h3⟩ := foldl_pipelineStep_invariant now raws [] initStats
  unfold transform_pipeline
  rw [h1, h2]
  simp [initStats] at h3 ⊢
  omega

theorem enrich_fields (site : StandardizedSite) :
    (_enrich_data site).iso_country_code =
      (match lookupCountryInfo site.country with
       | some m => some m.iso
       | none => site.iso_country_code) ∧
    (_enrich_data site).continent =
      (match lookupCountryInfo site.country with
       | some m => some m.continent
       | none => site.continent) ∧
    (_enrich_data site).region =
      (let r0 := (match lookupCountryInfo site.country with
                  | some m => some m.region
                  | none => site.region);
       if optFalsy r0 ∧ site.location ≠ ("") then _infer_region_from_location site.location
       else r0) ∧
    (_enrich_data site).country = site.country ∧
    (_enrich_data site).location = site.location := by
  unfold _enrich_data
  cases h : lookupCountryInfo site.country with
  | some m =>
    simp only [h]
    constructor
    · split <;> simp
    constructor
    · split <;> simp
    constructor
    · split <;> simp_all
    constructor
    · split <;> simp
    · split <;> simp
  | none =>
    simp only [h]
    constructor
    · split <;> simp
    constructor
    · split <;> simp
    constructor
    · split <;> simp_all
    constructor
    · split <;> simp
    · split <;> simp

/-- Claim C9: enrichment is idempotent on geography — re-applying
`_enrich_data` to an already-enriched entity leaves `iso_country_code`,
`region` and `continent` unchanged. -/
theorem C9_enrich_idempotent_geography (site : StandardizedSite) :
    (_enrich_data (_enrich_data site)).iso_country_code = (_enrich_data site).iso_country_code ∧
    (_enrich_data (_enrich_data site)).region = (_enrich_data site).region ∧
    (_enrich_data (_enrich_data site)).continent = (_enrich_data site).continent := by
  obtain ⟨i1, c1, r1, n1, l1⟩ := enrich_fields site
  obtain ⟨i2, c2, r2, n2, l2⟩ := enrich_fields (_enrich_data site)
  rw [n1] at i2 c2 r2
  rw [l1] at r2
  cases h : lookupCountryInfo site.country with
  | some m =>
    simp only [h] at i1 c1 r1 i2 c2 r2
    refine ⟨by rw [i2, i1], ?_, by rw [c2, c1]⟩
    rw [r2, r1]
  | none =>
    simp only [h] at i1 c1 r1 i2 c2 r2
    refine ⟨by rw [i2, i1], ?_, by rw [c2, c1]⟩
    by_cases hc1 : (optFalsy site.region = true) ∧ site.location ≠ ("")
    · rw [if_pos hc1] at r1
      by_cases hf : optFalsy (_infer_region_from_location site.location) = true
      · have hER : optFalsy (_enrich_data site).region = true := by rw [r1]; exact hf
        rw [r2, if_pos ⟨hER, hc1.2⟩, r1]
      · rw [r2, if_neg, r1]
        intro hcontra
        rw [r1] at hcontra
        exact hf hcontra.1
    · rw [if_neg hc1] at r1
      rw [r2, r1, if_neg hc1]

theorem runsToUnderscore_cons_nonspace (c : Char) (cs : Chars) (h : pySpace c = false) :
    runsToUnderscore (c :: cs) = c :: runsToUnderscore cs := by
  cases cs with
  | nil => simp [runsToUnderscore, h]
  | cons d rest => simp [runsToUnderscore, h]

theorem runsToUnderscore_cons_space (cs : Chars) :
    ∀ (c : Char), pySpace c = true →
      runsToUnderscore (c :: cs) = '_' :: runsToUnderscore (cs.dropWhile pySpace) := by
  induction cs with
  | nil => intro c h; simp [runsToUnderscore, h]
  | cons d rest ih =>
    intro c h
    cases hd : pySpace d with
    | true =>
      rw [show runsToUnderscore (c :: d :: rest) = runsToUnderscore (d :: rest) by
            simp [runsToUnderscore, h, hd]]
      rw [ih d hd, List.dropWhile_cons_of_pos (by simp [hd])]
    | false =>
      rw [show runsToUnderscore (c :: d :: rest) = '_' :: runsToUnderscore (d :: rest) by
            simp [runsToUnderscore, h, hd]]
      rw [List.dropWhile_cons_of_neg (by simp [hd])]

theorem collapseRunsAux_eq_runsToUnderscore (l : Chars) :
    collapseRunsAux '_' false l = runsToUnderscore l ∧
    collapseRunsAux '_' true l = runsToUnderscore (l.dropWhile pySpace) := by
  induction l with
  | nil => simp [collapseRunsAux, runsToUnderscore]
  | cons c cs ih =>
    cases hc : pySpace c with
    | true =>
      constructor
      · rw [runsToUnderscore_cons_space cs c hc]
        simp [collapseRunsAux, hc, ih.2]
      · rw [List.dropWhile_cons_of_pos (by simp [hc])]
        simp [collapseRunsAux, hc, ih.2]
    | false =>
      constructor
      · rw [runsToUnderscore_cons_nonspace c cs hc]
        simp [collapseRunsAux, hc, ih.1]
      · rw [List.dropWhile_cons_of_neg (by simp [hc]),
            runsToUnderscore_cons_nonspace c cs hc]
        simp [collapseRunsAux, hc, ih.1]

theorem collapse_us (l : Chars) : collapseRunsAux '_' false l = runsToUnderscore l :=
  (collapseRunsAux_eq_runsToUnderscore l).1

/-- Claim C1: the site id equals the claimed formula (lowercased
`"{name}_{country}"`, non-word non-whitespace characters removed, each
whitespace run replaced by one underscore, truncated to 50 characters),
and records with equal cleaned name and cleaned country receive the
identical id. -/
theorem C1_site_id_formula_and_determinism :
    (∀ name country, _generate_site_id name country = c1IdSpec name country) ∧
    (∀ (r1 r2 : RawRecord) (now1 now2 : String) (cl1 cl2 : CleanedSite),
      _clean_data r1 = Except.ok cl1 → _clean_data r2 = Except.ok cl2 →
      cl1.name = cl2.name → cl1.country = cl2.country →
      (_standardize_data now1 cl1).id = (_standardize_data now2 cl2).id) := by
  constructor
  · intro name country
    unfold _generate_site_id c1IdSpec collapseRuns
    simp only [collapse_us]
  · intro r1 r2 now1 now2 cl1 cl2 h1 h2 hn hc
    show _generate_site_id cl1.name cl1.country = _generate_site_id cl2.name cl2.country
    rw [hn, hc]

theorem C1_witness :
    (_standardize_data ("t1")
      (CleanedSite.mk ("Angkor Wat") ("Cambodia") ("Cambodia") ("Unknown") ("Unknown"))).id =
    (_standardize_data ("t2")
      (CleanedSite.mk ("Angkor Wat") ("Cambodia") ("Cambodia") ("Unknown") ("Unknown"))).id :=
  C1_site_id_formula_and_determinism.2 c1WitRaw1 c1WitRaw2 ("t1") ("t2") _ _
    (by rfl) (by rfl) (by rfl) (by rfl)

theorem lookupCriteria_type (n : String) (m : CriteriaType × String)
    (h : lookupCriteria n = some m) :
    m.1 = CriteriaType.CULTURAL ∨ m.1 = CriteriaType.NATURAL := by
  unfold lookupCriteria at h
  cases hf : criteria_mappings.find? (fun e => decide (e.1 = n)) with
  | none => rw [hf] at h; cases h
  | some e =>
    rw [hf] at h
    have he := List.mem_of_find?_eq_some hf
    injection h with h2
    subst h2
    fin_cases he <;> simp

theorem accumType_mixed (ns : List String) :
    accumType CriteriaType.MIXED ns = CriteriaType.MIXED := by
  induction ns with
  | nil => rfl
  | cons n ns ih =>
    unfold accumType
    cases h : lookupCriteria n with
    | none => exact ih
    | some m =>
      show accumType
        (if (CriteriaType.MIXED : CriteriaType) = CriteriaType.UNKNOWN then m.1
         else if CriteriaType.MIXED ≠ m.1 then CriteriaType.MIXED
         else CriteriaType.MIXED) ns = CriteriaType.MIXED
      have hm : (if (CriteriaType.MIXED : CriteriaType) = CriteriaType.UNKNOWN then m.1
                 else if CriteriaType.MIXED ≠ m.1 then CriteriaType.MIXED
                 else CriteriaType.MIXED) = CriteriaType.MIXED := by
        split
        · simp_all
        · split <;> rfl
      rw [hm]
      exact ih

theorem accumType_cultural (ns : List String) :
    accumType CriteriaType.CULTURAL ns = CriteriaType.MIXED ↔
      hasTypeAmong CriteriaType.NATURAL ns = true := by
  induction ns with
  | nil => simp [accumType, hasTypeAmong]
  | cons n ns ih =>
    unfold accumType
    cases h : lookupCriteria n with
    | none => simp only []; rw [ih]; simp [hasTypeAmong, h, List.any_cons]
    | some m =>
      rcases lookupCriteria_type n m h with hm | hm
      · have : (if (CriteriaType.CULTURAL : CriteriaType) = CriteriaType.UNKNOWN then m.1
                else if CriteriaType.CULTURAL ≠ m.1 then CriteriaType.MIXED
                else CriteriaType.CULTURAL) = CriteriaType.CULTURAL := by
          rw [hm]; simp
        simp only [this]
        rw [ih]
        simp [hasTypeAmong, h, hm, List.any_cons]
      · have : (if (CriteriaType.CULTURAL : CriteriaType) = CriteriaType.UNKNOWN then m.1
                else if CriteriaType.CULTURAL ≠ m.1 then CriteriaType.MIXED
                else CriteriaType.CULTURAL) = CriteriaType.MIXED := by
          rw [hm]; simp
        simp only [this]
        rw [accumType_mixed]
        simp [hasTypeAmong, h, hm, List.any_cons]

theorem accumType_natural (ns : List String) :
    accumType CriteriaType.NATURAL ns = CriteriaType.MIXED ↔
      hasTypeAmong CriteriaType.CULTURAL ns = true := by
  induction ns with
  | nil => simp [accumType, hasTypeAmong]
  | cons n ns ih =>
    unfold accumType
    cases h : lookupCriteria n with
    | none => simp only []; rw [ih]; simp [hasTypeAmong, h, List.any_cons]
    | some m =>
      rcases lookupCriteria_type n m h with hm | hm
      · have : (if (CriteriaType.NATURAL : CriteriaType) = CriteriaType.UNKNOWN then m.1
                else if CriteriaType.NATURAL ≠ m.1 then CriteriaType.MIXED
                else CriteriaType.NATURAL) = CriteriaType.MIXED := by
          rw [hm]; simp
        simp only [this]
        rw [accumType_mixed]
        simp [hasTypeAmong, h, hm, List.any_cons]
      · have : (if (CriteriaType.NATURAL : CriteriaType) = CriteriaType.UNKNOWN then m.1
                else if CriteriaType.NATURAL ≠ m.1 then CriteriaType.MIXED
                else CriteriaType.NATURAL) = CriteriaType.NATURAL := by
          rw [hm]; simp
        simp only [this]
        rw [ih]
        simp [hasTypeAmong, h, hm, List.any_cons]

theorem accumType_unknown (ns : List String) :
    accumType CriteriaType.UNKNOWN ns = CriteriaType.MIXED ↔
      (hasTypeAmong CriteriaType.CULTURAL ns = true ∧
       hasTypeAmong CriteriaType.NATURAL ns = true) := by
  induction ns with
  | nil => simp [accumType, hasTypeAmong]
  | cons n ns ih =>
    unfold accumType
    cases h : lookupCriteria n with
    | none =>
      simp only []
      rw [ih]
      simp [hasTypeAmong, h, List.any_cons]
    | some m =>
      rcases lookupCriteria_type n m h with hm | hm
      · simp only [if_true, hm]
        rw [accumType_cultural]
        simp [hasTypeAmong, h, hm, List.any_cons]
      · simp only [if_true, hm]
        rw [accumType_natural]
        simp [hasTypeAmong, h, hm, List.any_cons]

/-- Claim C2: the parsed criteria type is `MIXED` exactly when the
recognized codes of the extracted token list span both base types, and the
example text parses to `MIXED` with codes i, ii, vii. -/
theorem C2_mixed_iff_both_types :
    (∀ s, (_parse_criteria s).1 = CriteriaType.MIXED ↔
      (hasTypeAmong CriteriaType.CULTURAL (_parse_criteria s).2.1 = true ∧
       hasTypeAmong CriteriaType.NATURAL (_parse_criteria s).2.1 = true)) ∧
    ((_parse_criteria ("Cultural criteria (i)(ii) and Natural criteria (vii)")).1 =
      CriteriaType.MIXED ∧
     (_parse_criteria ("Cultural criteria (i)(ii) and Natural criteria (vii)")).2.1 =
      [("i"), ("ii"), ("vii")]) := by
  refine ⟨?_, by decide, by decide⟩
  intro s
  unfold _parse_criteria
  split
  · simp [hasTypeAmong]
  · exact accumType_unknown _

/-- Claim C7 (amended): every element of `criteria_numbers` is one of the
twelve whole-word tokens the Roman-numeral pattern can produce (the ten
codes plus `iiv` and `iiiv`); elements may repeat. -/
theorem C7_amended_tokens (s : String) (t : String)
    (h : t ∈ (_parse_criteria s).2.1) : t ∈ romanTokens := by
  unfold _parse_criteria at h
  split at h
  · simp at h
  · unfold extract_criteria_numbers at h
    simp only [] at h
    split at h
    · rcases List.mem_filterMap.mp h with ⟨n, hn, hsome⟩
      split at hsome
      · cases hsome
        rename_i hk
        obtain ⟨hk1, hk2⟩ := hk
        interval_cases hi : (tokenToNat n) <;> decide
      · cases hsome
    · unfold findRomanTokens at h
      have := List.mem_filter.mp h
      simpa using this.2

theorem C7_witness :
    ("iii" : String) ∈ (_parse_criteria ("(iii)")).2.1 ∧ ("iii" : String) ∈ romanTokens :=
  ⟨by decide, C7_amended_tokens ("(iii)") ("iii") (by decide)⟩

/-- Claim C7 counterexample: the token `iiv` is extracted although it is
not one of the ten codes, and the code list may contain duplicates. -/
theorem C7_counterexample :
    (_parse_criteria ("iiv")).2.1 = [("iiv")] ∧
    ("iiv" : String) ∉ tenCriteriaCodes ∧
    (_parse_criteria ("(i) and (i)")).2.1 = [("i"), ("i")] ∧
    ¬ ((_parse_criteria ("(i) and (i)")).2.1).Nodup :=
  ⟨by decide, by decide, by decide, by decide⟩

theorem foldl_stripEachPrefix (ps : List String) (s : Chars) :
    ps.foldl (fun acc p => if (p.toList).isPrefixOf acc then acc.drop p.length else acc) s
      = stripEachMatchingPrefixInOrder ps s := by
  induction ps generalizing s with
  | nil => rfl
  | cons p ps ih =>
    simp only [List.foldl_cons, stripEachMatchingPrefixInOrder]
    exact ih _

theorem foldl_stripEachSuffix (xs : List String) (s : Chars) :
    xs.foldl (fun acc x => if (x.toList).isSuffixOf acc then acc.take (acc.length - x.length) else acc) s
      = stripEachMatchingSuffixInOrder xs s := by
  induction xs generalizing s with
  | nil => rfl
  | cons x xs ih =>
    simp only [List.foldl_cons, stripEachMatchingSuffixInOrder]
    exact ih _

/-- Claim C5 counterexample: on "The Historic Castle" the source strips
two prefixes in sequence (`"the "` then `"historic "`), producing a result
that no removal of at most one matching prefix and at most one matching
suffix can produce. -/
theorem C5_counterexample :
    _normalize_name ("The Historic Castle") = ("castle") ∧
    ("castle" : String) ∉ c5ClaimOutcomes ("The Historic Castle") :=
  ⟨by decide, by decide⟩

/-- Claim C5 (amended): name normalization lowercases, then walks the
fixed prefix list in order removing every entry that matches the start of
the current string (each entry at most once, so several prefixes can be
stripped in sequence), then walks the suffix list the same way, and
finally strips surrounding whitespace. -/
theorem C5_amended_normalize_name (name : String) :
    _normalize_name name = c5AmendedNormalize name := by
  unfold _normalize_name c5AmendedNormalize
  simp only [foldl_stripEachPrefix, foldl_stripEachSuffix]

theorem enrich_preserves_other (site : StandardizedSite) :
    (_enrich_data site).name = site.name ∧
    (_enrich_data site).criteria_description = site.criteria_description ∧
    (_enrich_data site).inscription_year = site.inscription_year ∧
    (_enrich_data site).criteria_type = site.criteria_type ∧
    (_enrich_data site).criteria_numbers = site.criteria_numbers ∧
    (_enrich_data site).last_updated = site.last_updated := by
  unfold _enrich_data
  cases h : lookupCountryInfo site.country with
  | some m =>
    refine ⟨?_, ?_, ?_, ?_, ?_, ?_⟩ <;> (simp only [h]; split <;> simp)
  | none =>
    refine ⟨?_, ?_, ?_, ?_, ?_, ?_⟩ <;> (simp only [h]; split <;> simp)

theorem quality_score_bounds (site : StandardizedSite) :
    0 ≤ _calculate_quality_score site ∧ _calculate_quality_score site ≤ 1 := by
  unfold _calculate_quality_score
  constructor
  · rw [Rat.divInt_eq_div]
    positivity
  · rw [Rat.divInt_eq_div]
    rw [div_le_one (by norm_num)]
    have h := List.countP_le_length (fun b => b) (l := _quality_checks site)
    have hlen : (_quality_checks site).length = 10 := by
      unfold _quality_checks; simp
    rw [hlen] at h
    exact_mod_cast h

set_option maxRecDepth 1000000 in
/-- Claim C3 counterexample: the constructed minimal record scores 2/10,
not the claimed 0.3. -/
theorem C3_counterexample :
    _calculate_quality_score (_enrich_data (_standardize_data ("2024-01-01T00:00:00") minimalClean))
      = Rat.divInt 2 10 ∧
    Rat.divInt 2 10 ≠ 3/10 := by
  constructor
  · decide
  · rw [Rat.divInt_eq_div]
    norm_num

/-- Claim C3 (amended): a minimal record — cleaned name of at least five
characters, country outside the country table, location equal to the
country and matching no region keyword, year and criteria the literal
"Unknown" — scores exactly 0.2 (only the name-length and last-updated
checks pass), and every entity scores within [0, 1]. -/
theorem C3_amended_minimal_score (cl : CleanedSite) (now : String)
    (hname : 5 ≤ cl.name.length)
    (hcountry : lookupCountryInfo cl.country = none)
    (hloc : cl.location = cl.country)
    (hinfer : _infer_region_from_location cl.location = none)
    (hyear : cl.year = ("Unknown"))
    (hcrit : cl.criteria = ("Unknown"))
    (hnow : now ≠ ("")) :
    _calculate_quality_score (_enrich_data (_standardize_data now cl)) = 2/10 ∧
    (∀ site : StandardizedSite,
      0 ≤ _calculate_quality_score site ∧ _calculate_quality_score site ≤ 1) := by
  refine ⟨?_, fun site => quality_score_bounds site⟩
  have hn1 : cl.name ≠ ("") := by
    intro h0
    rw [h0] at hname
    simp at hname
  obtain ⟨hiso, hcont, hreg, hcn, hlo⟩ := enrich_fields (_standardize_data now cl)
  obtain ⟨hEname, hEdesc, hEyear, hEtype, hEnums, hEupd⟩ :=
    enrich_preserves_other (_standardize_data now cl)
  have hsc : (_standardize_data now cl).country = cl.country := rfl
  rw [hsc, hcountry] at hiso hcont hreg
  simp only [] at hiso hcont hreg
  have hisoN : (_enrich_data (_standardize_data now cl)).iso_country_code = none := by
    rw [hiso]; rfl
  have hcontN : (_enrich_data (_standardize_data now cl)).continent = none := by
    rw [hcont]; rfl
  have hregN : (_enrich_data (_standardize_data now cl)).region = none := by
    rw [hreg]
    have hsr : (_standardize_data now cl).region = none := rfl
    have hsl : (_standardize_data now cl).location = cl.location := rfl
    rw [hsr, hsl]
    by_cases hl0 : cl.location = ("")
    · simp [hl0, optFalsy]
    · simp [hl0, optFalsy, hinfer]
  unfold _calculate_quality_score
  have hq : _quality_checks (_enrich_data (_standardize_data now cl)) =
      [true, false, false, false, false, false, false, false, false, true] := by
    unfold _quality_checks
    rw [hisoN, hcontN, hregN, hEname, hEdesc, hEyear, hEtype, hEnums, hEupd, hcn, hlo]
    have hsl : (_standardize_data now cl).location = cl.location := rfl
    have hsn : (_standardize_data now cl).name = cl.name := rfl
    have hsu : (_standardize_data now cl).last_updated = now := rfl
    have hsy : (_standardize_data now cl).inscription_year = _parse_year cl.year := rfl
    have hst : (_standardize_data now cl).criteria_type = (_parse_criteria cl.criteria).1 := rfl
    have hsm : (_standardize_data now cl).criteria_numbers = (_parse_criteria cl.criteria).2.1 := rfl
    have hsd : (_standardize_data now cl).criteria_description = (_parse_criteria cl.criteria).2.2 := rfl
    rw [hsl, hsn, hsu, hsy, hst, hsm, hsd, hsc, hyear, hcrit, hloc]
    simp [hn1, hname, hnow, optFalsy]
    decide
  rw [hq]
  show Rat.divInt 2 10 = 2/10
  rw [Rat.divInt_eq_div]
  norm_num

set_option maxRecDepth 1000000 in
theorem C3_witness :
    5 ≤ (minimalClean.name).length ∧
    lookupCountryInfo minimalClean.country = none ∧
    _infer_region_from_location minimalClean.location = none ∧
    _calculate_quality_score (_enrich_data (_standardize_data ("2024-06-01T12:00:00") minimalClean)) = 2/10 :=
  ⟨by decide, by decide, by decide,
   (C3_amended_minimal_score minimalClean ("2024-06-01T12:00:00") (by decide) (by decide)
     (by decide) (by decide) (by decide) (by decide) (by decide)).1⟩

theorem insertSorted_perm (a : String) (l : List String) :
    (insertSorted a l).Perm (a :: l) := by
  induction l with
  | nil => exact List.Perm.refl _
  | cons b bs ih =>
    unfold insertSorted
    split
    · exact List.Perm.refl _
    · exact (ih.cons b).trans (List.Perm.swap a b bs)

theorem sortStrings_perm (l : List String) : (sortStrings l).Perm l := by
  induction l with
  | nil => exact List.Perm.refl _
  | cons a as ih =>
    unfold sortStrings
    simp only [List.foldr_cons]
    exact (insertSorted_perm a _).trans (ih.cons a)

theorem filter_eq_singleton_of (a : String) (p : String → Bool) :
    ∀ (l : List String), l.Nodup → a ∈ l → (∀ x ∈ l, p x = true → x = a) →
      p a = true → l.filter p = [a] := by
  intro l
  induction l with
  | nil => intro _ ha; cases ha
  | cons b bs ih =>
    intro hnd ha hall hpa
    rcases List.mem_cons.mp ha with hb | hb
    · subst hb
      rw [List.filter_cons_of_pos hpa]
      have hnil : bs.filter p = [] := by
        refine List.filter_eq_nil_iff.mpr ?_
        intro x hx hpx
        have := hall x (List.mem_cons_of_mem _ hx) hpx
        subst this
        exact (List.nodup_cons.mp hnd).1 hx
      rw [hnil]
    · have hab : b ≠ a := by
        intro he
        subst he
        exact (List.nodup_cons.mp hnd).1 hb
      have hpb : p b = false := by
        cases hpb : p b with
        | false => rfl
        | true => exact absurd (hall b (List.mem_cons_self b bs) hpb) hab
      rw [List.filter_cons_of_neg (by simp [hpb])]
      exact ih (List.nodup_cons.mp hnd).2 hb
        (fun x hx hpx => hall x (List.mem_cons_of_mem b hx) hpx) hpa

theorem tier_tag_mem_tierLabels (q : ℚ) : _quality_tier_tag q ∈ tierLabels := by
  unfold _quality_tier_tag
  split
  · decide
  · split <;> decide

/-- Claim C4 (amended): provided no other generated tag coincides with a
tier label (only the free-text country, region or continent fields could),
the final tag list contains exactly one tier tag, chosen by thresholds
score ≥ 8/10 (high), ≥ 6/10 (medium), otherwise low. -/
theorem C4_amended_single_tier_tag (site : StandardizedSite)
    (h : ∀ t ∈ _pre_tags site, t ∉ tierLabels) :
    (_generate_tags site).filter (fun t => decide (t ∈ tierLabels)) =
      [_quality_tier_tag site.data_quality_score] ∧
    ((8/10 : ℚ) ≤ site.data_quality_score →
      _quality_tier_tag site.data_quality_score = ("high_quality_data")) ∧
    (site.data_quality_score < 8/10 → (6/10 : ℚ) ≤ site.data_quality_score →
      _quality_tier_tag site.data_quality_score = ("medium_quality_data")) ∧
    (site.data_quality_score < 6/10 →
      _quality_tier_tag site.data_quality_score = ("low_quality_data")) := by
  have hdiv8 : Rat.divInt 8 10 = (8/10 : ℚ) := by
    rw [Rat.divInt_eq_div]; norm_num
  have hdiv6 : Rat.divInt 6 10 = (6/10 : ℚ) := by
    rw [Rat.divInt_eq_div]; norm_num
  refine ⟨?_, ?_, ?_, ?_⟩
  · unfold _generate_tags pySortedSet
    set base := _pre_tags site ++ [_quality_tier_tag site.data_quality_score] with hbase
    have hperm : (sortStrings base.dedup).Perm base.dedup := sortStrings_perm _
    have hfp := hperm.filter (fun t => decide (t ∈ tierLabels))
    have hsingle : base.dedup.filter (fun t => decide (t ∈ tierLabels)) =
        [_quality_tier_tag site.data_quality_score] := by
      apply filter_eq_singleton_of
      · exact List.nodup_dedup base
      · exact List.mem_dedup.mpr (by rw [hbase]; exact List.mem_append_right _ (List.mem_cons_self _ _))
      · intro x hx hpx
        have hxb : x ∈ base := List.mem_dedup.mp hx
        rcases List.mem_append.mp (hbase ▸ hxb) with hpre | htier
        · exact absurd (of_decide_eq_true hpx) (h x hpre)
        · simpa using htier
      · exact decide_eq_true (tier_tag_mem_tierLabels _)
    rw [hsingle] at hfp
    exact List.perm_singleton.mp hfp
  · intro hq
    unfold _quality_tier_tag
    rw [if_pos (by rw [hdiv8]; exact hq)]
  · intro hq1 hq2
    unfold _quality_tier_tag
    rw [if_neg (by rw [hdiv8]; exact not_le.mpr hq1), if_pos (by rw [hdiv6]; exact hq2)]
  · intro hq
    unfold _quality_tier_tag
    rw [if_neg (by rw [hdiv8]; exact not_le.mpr (lt_trans hq (by norm_num))),
        if_neg (by rw [hdiv6]; exact not_le.mpr hq)]

set_option maxRecDepth 1000000 in
/-- Claim C4 counterexample: the pipeline output for a record whose
country is literally "High Quality Data" carries two tier labels in its
generated tag list, so the list does not contain exactly one. -/
theorem C4_counterexample :
    ((transform_pipeline ("2024-01-01T00:00:00") [c4CexRaw]).1.map (fun s => s.tags)) =
      [[("high_quality_data"), ("low_quality_data"), ("unknown")]] ∧
    ¬ (((transform_pipeline ("2024-01-01T00:00:00") [c4CexRaw]).1.map
        (fun s => (s.tags.filter (fun t => decide (t ∈ tierLabels))).length)) = [1]) :=
  ⟨by decide, by decide⟩

set_option maxRecDepth 1000000 in
theorem C4_witness :
    (∀ t ∈ _pre_tags c4WitSite, t ∉ tierLabels) ∧
    (_generate_tags c4WitSite).filter (fun t => decide (t ∈ tierLabels)) =
      [_quality_tier_tag c4WitSite.data_quality_score] :=
  ⟨by decide, (C4_amended_single_tier_tag c4WitSite (by decide)).1⟩

/-- Claim C6 (amended): the year field is coerced to string and only
whitespace-stripped — no reference-marker removal; the criteria field is
not coerced — cleaning succeeds only when it is a string, which is
stripped and then reference-marker-stripped, while a non-string criteria
raises and the record fails cleaning. -/
theorem C6_amended_year_criteria_cleaning :
    (∀ (r : RawRecord) (cl : CleanedSite), _clean_data r = Except.ok cl →
      cl.year = pyStrip (pyValToStr (r.year.getD (PyVal.str ("Unknown")))) ∧
      ∃ rawCrit : String, r.criteria.getD (PyVal.str ("Unknown")) = PyVal.str rawCrit ∧
        cl.criteria = subBracketsS (pyStrip rawCrit)) ∧
    (∀ (r : RawRecord) (n : Int), r.criteria = some (PyVal.int n) →
      ∃ e, _clean_data r = Except.error e) := by
  constructor
  · intro r cl h
    unfold _clean_data at h
    cases h1 : getFieldStr r.name ("") with
    | error e => simp [h1, Bind.bind, Except.bind] at h
    | ok s1 =>
      cases h2 : getFieldStr r.country ("") with
      | error e => simp [h1, h2, Bind.bind, Except.bind] at h
      | ok s2 =>
        cases h3 : getFieldStr r.location (cleanTextField s2) with
        | error e => simp [h1, h2, h3, Bind.bind, Except.bind] at h
        | ok s3 =>
          cases h4 : getFieldStr r.criteria ("Unknown") with
          | error e => simp [h1, h2, h3, h4, Bind.bind, Except.bind] at h
          | ok s4 =>
            simp only [h1, h2, h3, h4, Bind.bind, Except.bind, pure, Except.pure] at h
            injection h with h5
            have hv : r.criteria.getD (PyVal.str ("Unknown")) = PyVal.str s4 := by
              unfold getFieldStr at h4
              cases hval : r.criteria.getD (PyVal.str ("Unknown")) with
              | str s => rw [hval] at h4; injection h4 with h6; rw [h6]
              | int m => rw [hval] at h4; cases h4
            refine ⟨?_, s4, hv, ?_⟩
            · rw [← h5]
            · rw [← h5]
  · intro r n hcrit
    have hc : getFieldStr r.criteria ("Unknown") = Except.error ("AttributeError") := by
      rw [hcrit]; rfl
    unfold _clean_data
    cases h1 : getFieldStr r.name ("") with
    | error e => exact ⟨e, by simp [h1, Bind.bind, Except.bind]⟩
    | ok s1 =>
      cases h2 : getFieldStr r.country ("") with
      | error e => exact ⟨e, by simp [h1, h2, Bind.bind, Except.bind]⟩
      | ok s2 =>
        cases h3 : getFieldStr r.location (cleanTextField s2) with
        | error e => exact ⟨e, by simp [h1, h2, h3, Bind.bind, Except.bind]⟩
        | ok s3 =>
          exact ⟨("AttributeError"), by simp [h1, h2, h3, hc, Bind.bind, Except.bind]⟩

/-- Claim C6 counterexample: the cleaned year keeps its bracketed
reference marker (the claimed transformation would have removed it), and a
non-string criteria value makes cleaning fail instead of being coerced. -/
theorem C6_counterexample :
    _clean_data c6CexRawYear =
      Except.ok (CleanedSite.mk ("Temple of Time") ("France") ("France") ("[1] 1992") ("Unknown")) ∧
    c6ClaimFieldSpec (PyVal.str ("[1] 1992")) = (" 1992") ∧
    ("[1] 1992" : String) ≠ (" 1992") ∧
    _clean_data c6CexRawCrit = Except.error ("AttributeError") :=
  ⟨by rfl, by decide, by decide, by rfl⟩

theorem C6_witness :
    (CleanedSite.mk ("Temple of Time") ("France") ("France") ("1992") ("Cultural (i)")).year
      = pyStrip (pyValToStr (c6WitRaw.year.getD (PyVal.str ("Unknown")))) :=
  (C6_amended_year_criteria_cleaning.1 c6WitRaw
    (CleanedSite.mk ("Temple of Time") ("France") ("France") ("1992") ("Cultural (i)"))
    (by rfl)).1

theorem dup_filter_nil_iff (ids : List String) :
    (ids.filter (fun i => decide (1 < ids.count i)) = []) ↔ ¬ ∃ i, 2 ≤ ids.count i := by
  rw [List.filter_eq_nil_iff]
  constructor
  · rintro h ⟨i, hi⟩
    have hmem : i ∈ ids := List.count_pos_iff.mp (by omega)
    have := h i hmem
    simp at this
    omega
  · intro h i hmem
    simp only [decide_eq_true_eq]
    intro hgt
    exact h ⟨i, by omega⟩

theorem filter_len_zero_iff (sites : List StandardizedSite) (p : StandardizedSite → Bool) :
    ((sites.filter p).length = 0) ↔ ¬ ∃ s ∈ sites, p s = true := by
  rw [List.length_eq_zero, List.filter_eq_nil_iff]
  constructor
  · rintro h ⟨s, hs, hp⟩
    exact h s hs hp
  · intro h s hs hp
    exact h ⟨s, hs, hp⟩

/-- Claim C8: `validation_passed` is false exactly when an error condition
holds — a duplicated id, a record with empty id, name or country, or a
nonzero inscription year outside [1900, 2030]; and a collection with two
entities sharing an id fails validation with a duplicate-id error naming
that id. -/
theorem C8_validation_passed_iff_errors :
    (∀ sites : List StandardizedSite,
      ((validate_transformed_data sites).validation_passed = false ↔
        ((∃ i, 2 ≤ (sites.map (fun s => s.id)).count i) ∨
         (∃ s ∈ sites, s.id = ("") ∨ s.name = ("") ∨ s.country = ("")) ∨
         (∃ s ∈ sites, 0 < s.inscription_year ∧
            (s.inscription_year < 1900 ∨ 2030 < s.inscription_year))))) ∧
    ((validate_transformed_data c8DupSites).validation_passed = false ∧
     VError.duplicateIds [("dup_site")] ∈ (validate_transformed_data c8DupSites).errors) := by
  refine ⟨?_, by decide, by decide⟩
  intro sites
  have hbf : ∀ (b : Bool), b = false ↔ ¬ (b = true) := fun b => by cases b <;> simp
  rw [hbf]
  show ¬ ((((sites.map (fun s => s.id)).filter
        (fun i => decide (1 < (sites.map (fun s => s.id)).count i))).isEmpty &&
      decide ((sites.filter (fun s => decide (s.id = ("")))).length = 0) &&
      decide ((sites.filter (fun s => decide (s.name = ("")))).length = 0) &&
      decide ((sites.filter (fun s => decide (s.country = ("")))).length = 0) &&
      decide ((sites.filter
        (fun s => decide (0 < s.inscription_year ∧
          (s.inscription_year < 1900 ∨ 2030 < s.inscription_year)))).length = 0)) = true) ↔ _
  simp only [Bool.and_eq_true, decide_eq_true_eq, List.isEmpty_iff]
  rw [dup_filter_nil_iff, filter_len_zero_iff, filter_len_zero_iff, filter_len_zero_iff,
      filter_len_zero_iff]
  simp only [decide_eq_true_eq]
  rw [show (∃ s ∈ sites, s.id = ("") ∨ s.name = ("") ∨ s.country = ("")) ↔
        ((∃ s ∈ sites, s.id = ("")) ∨ (∃ s ∈ sites, s.name = ("")) ∨
         (∃ s ∈ sites, s.country = (""))) from by simp [and_or_left, exists_or]]
  generalize (∃ i, 2 ≤ (sites.map (fun s => s.id)).count i) = P1
  generalize (∃ s ∈ sites, s.id = ("")) = P2
  generalize (∃ s ∈ sites, s.name = ("")) = P3
  generalize (∃ s ∈ sites, s.country = ("")) = P4
  generalize (∃ s ∈ sites, 0 < s.inscription_year ∧
    (s.inscription_year < 1900 ∨ 2030 < s.inscription_year)) = P5
  tauto
